import Mathlib

/-!
Verification of the SafeScan client state container
(`project/src/context/EmployeeContext.tsx`).

The container holds an in-memory mirror of the employee collection
(`employees`), the most recently fetched single record
(`currentEmployee`), a shared `loading` flag and a shared `error`
message slot.  Each exported operation performs exactly one HTTP
request and then updates this state.  We embed each operation as a
pure function from the pre-state and the request outcome to the
post-state together with the value the returned promise settles with
(`Except.ok` = the promise resolves, `Except.error` = it rejects with
an `Error` carrying the given message).
-/

/-- `Medication` interface of `EmployeeContext.tsx`. -/
structure Medication where
  name : String
  dosage : Option String
  frequency : Option String
deriving DecidableEq

/-- `EmergencyContact` interface of `EmployeeContext.tsx`. -/
structure EmergencyContact where
  name : String
  phone : String
  relationship : String
deriving DecidableEq

/-- `Physician` interface of `EmployeeContext.tsx`. -/
structure Physician where
  name : String
  phone : String
  specialty : Option String
deriving DecidableEq

/-- `Insurance` interface of `EmployeeContext.tsx`. -/
structure Insurance where
  provider : String
  memberId : String
  groupNumber : Option String
deriving DecidableEq

/-- `Employee` interface of `EmployeeContext.tsx`. -/
structure Employee where
  _id : String
  employeeId : String
  name : String
  dob : String
  age : Nat
  bloodGroup : String
  allergies : List String
  medications : List Medication
  emergencyContacts : List EmergencyContact
  physician : Physician
  insurance : Insurance
  qrCodeUrl : Option String
  medicalConditions : Option (List String)
  notes : Option String
  createdAt : Option String
  updatedAt : Option String
deriving DecidableEq

/-- The state held by `EmployeeProvider`: the four `useState` slots. -/
structure ClientState where
  employees : List Employee
  currentEmployee : Option Employee
  loading : Bool
  error : Option String
deriving DecidableEq

/-- Outcome of the single awaited axios call inside an operation.
`success` carries the payload found in `response.data.data`
(for `deleteEmployee` the response body is unused, so the payload is
`Unit`).  `failure` carries `error.response?.data?.message` when that
optional chain yields a string, and `none` when any link of the chain
is absent. -/
inductive Outcome (α : Type) where
  | success : α → Outcome α
  | failure : Option String → Outcome α
deriving DecidableEq

/-- JavaScript `m || fallback` on an optional string `m`:
a missing message, and also an empty (falsy) one, falls through
to the fallback string. -/
def jsOrString (m : Option String) (fallback : String) : String :=
  match m with
  | some s => if s = "" then fallback else s
  | none => fallback

/-- `setLoading(true); setError(null)` — the first two statements of
every operation's `try` block. -/
def beginOp (s : ClientState) : ClientState :=
  { s with loading := true, error := none }

/-- `fetchEmployees` of `EmployeeContext.tsx`: on success replaces the
whole cached list with `response.data.data`; on failure only records
the message in the error slot (the `catch` swallows the exception, so
the promise resolves either way).  The `finally` sets `loading` back
to `false`. -/
def fetchEmployees (s : ClientState) (o : Outcome (List Employee)) :
    ClientState × Except String Unit :=
  let s1 := beginOp s
  match o with
  | Outcome.success list =>
      ({ s1 with employees := list, loading := false }, Except.ok ())
  | Outcome.failure m =>
      ({ s1 with error := some (jsOrString m "Failed to fetch employees"),
                 loading := false }, Except.ok ())

/-- `fetchEmployee(id)` of `EmployeeContext.tsx`: on success stores the
fetched record as `currentEmployee` and returns it; on failure stores
the message and throws `new Error(errorMessage)`.  (`id` only forms
the request URL; the response it provokes is already the outcome.) -/
def fetchEmployee (s : ClientState) (id : String) (o : Outcome Employee) :
    ClientState × Except String Employee :=
  let s1 := beginOp s
  match o with
  | Outcome.success employee =>
      ({ s1 with currentEmployee := some employee, loading := false },
       Except.ok employee)
  | Outcome.failure m =>
      let errorMessage := jsOrString m "Failed to fetch employee"
      ({ s1 with error := some errorMessage, loading := false },
       Except.error errorMessage)

/-- `createEmployee(employeeData)` of `EmployeeContext.tsx`: posts the
payload (the payload only travels over the wire, so it is subsumed by
the outcome); on success prepends `response.data.data` to the cached
list via `setEmployees(prev => [newEmployee, ...prev])` and returns
it; on failure stores the message and throws. -/
def createEmployee (s : ClientState) (o : Outcome Employee) :
    ClientState × Except String Employee :=
  let s1 := beginOp s
  match o with
  | Outcome.success newEmployee =>
      ({ s1 with employees := newEmployee :: s1.employees, loading := false },
       Except.ok newEmployee)
  | Outcome.failure m =>
      let errorMessage := jsOrString m "Failed to create employee"
      ({ s1 with error := some errorMessage, loading := false },
       Except.error errorMessage)

/-- `updateEmployee(id, employeeData)` of `EmployeeContext.tsx`: on
success maps the cached list with
`emp => emp._id === id ? updatedEmployee : emp` and returns the
server's record; on failure stores the message and throws. -/
def updateEmployee (s : ClientState) (id : String) (o : Outcome Employee) :
    ClientState × Except String Employee :=
  let s1 := beginOp s
  match o with
  | Outcome.success updatedEmployee =>
      ({ s1 with
           employees := s1.employees.map
             (fun emp => if emp._id = id then updatedEmployee else emp),
           loading := false },
       Except.ok updatedEmployee)
  | Outcome.failure m =>
      let errorMessage := jsOrString m "Failed to update employee"
      ({ s1 with error := some errorMessage, loading := false },
       Except.error errorMessage)

/-- `deleteEmployee(id)` of `EmployeeContext.tsx`: on success filters
the cached list with `emp => emp._id !== id`; on failure stores the
message and throws. -/
def deleteEmployee (s : ClientState) (id : String) (o : Outcome Unit) :
    ClientState × Except String Unit :=
  let s1 := beginOp s
  match o with
  | Outcome.success _ =>
      ({ s1 with employees := s1.employees.filter (fun emp => emp._id ≠ id),
                 loading := false }, Except.ok ())
  | Outcome.failure m =>
      let errorMessage := jsOrString m "Failed to delete employee"
      ({ s1 with error := some errorMessage, loading := false },
       Except.error errorMessage)

/-- The payload of a successful `GET /employees/:id/qr` response:
`response.data.data` holds a `qrCodeDataUrl` field. -/
structure QRResponseData where
  qrCodeDataUrl : String
deriving DecidableEq

/-- `generateQRCode(id)` of `EmployeeContext.tsx`: on success returns
`response.data.data.qrCodeDataUrl` without touching `employees` or
`currentEmployee`; on failure stores the message and throws. -/
def generateQRCode (s : ClientState) (id : String) (o : Outcome QRResponseData) :
    ClientState × Except String String :=
  let s1 := beginOp s
  match o with
  | Outcome.success d =>
      ({ s1 with loading := false }, Except.ok d.qrCodeDataUrl)
  | Outcome.failure m =>
      let errorMessage := jsOrString m "Failed to generate QR code"
      ({ s1 with error := some errorMessage, loading := false },
       Except.error errorMessage)

/-- The message selection the specification's wording describes for a
failing operation: the response body's `message` field whenever it is
present, and the generic fallback only when it is absent.  (Stated
from the spec's words, to compare against `jsOrString`, which embeds
the code's `||`.) -/
def specClaimedMessage (m : Option String) (fallback : String) : String :=
  match m with
  | some s => s
  | none => fallback

/-- A concrete employee record used for witnesses and counterexamples. -/
def sampleEmployee (i : String) (n : String) : Employee :=
  { _id := i, employeeId := "EMP-" ++ i, name := n, dob := "2000-01-01",
    age := 25, bloodGroup := "O+", allergies := [], medications := [],
    emergencyContacts := [],
    physician := { name := "Dr. House", phone := "555-0100", specialty := none },
    insurance := { provider := "Acme", memberId := "M1", groupNumber := none },
    qrCodeUrl := none, medicalConditions := none, notes := none,
    createdAt := none, updatedAt := none }

/-- A concrete state with an empty cache. -/
def emptyState : ClientState :=
  { employees := [], currentEmployee := none, loading := false, error := none }

/-- A concrete state whose cache holds one employee with identifier `x`. -/
def singleState : ClientState :=
  { employees := [sampleEmployee "x" "Alice"], currentEmployee := none,
    loading := false, error := none }

/-- A concrete state whose cache holds two distinct employees that share
the identifier `x`. -/
def dupState : ClientState :=
  { employees := [sampleEmployee "x" "Alice", sampleEmployee "x" "Bob"],
    currentEmployee := none, loading := false, error := none }

/-- A concrete state in which employee `x` is both cached and currently
viewed. -/
def viewingState : ClientState :=
  { employees := [sampleEmployee "x" "Alice"],
    currentEmployee := some (sampleEmployee "x" "Alice"),
    loading := false, error := none }

/-- How `m || fallback` selects the stored message: it keeps a present
non-empty message and falls back exactly when the message is absent or
empty. -/
theorem jsOrString_selects (m : Option String) (fb : String) :
    (∀ t, m = some t → t ≠ "" → jsOrString m fb = t) ∧
    ((m = none ∨ m = some "") → jsOrString m fb = fb) := by
  constructor
  · intro t h ht
    subst h
    simp [jsOrString, ht]
  · intro h
    rcases h with h | h <;> subst h <;> simp [jsOrString]

/-- Generic counting fact used for `deleteEmployee`: the entries kept by
the filter plus the matching entries account for the whole list. -/
theorem length_filter_ne_add_countP (l : List Employee) (id : String) :
    (l.filter (fun e => e._id ≠ id)).length
      + l.countP (fun e => e._id = id) = l.length := by
  induction l with
  | nil => rfl
  | cons a l ih =>
    by_cases ha : a._id = id <;>
      simp [List.filter_cons, List.countP_cons, ha] at ih ⊢ <;> omega

/-- C1: a failing `fetchEmployees` run stores an error message in the
shared error slot and resolves normally (never rejects). -/
theorem C1_fetchEmployees_failure_resolves (s : ClientState) (m : Option String) :
    (fetchEmployees s (Outcome.failure m)).2 = Except.ok () ∧
    ∃ msg, (fetchEmployees s (Outcome.failure m)).1.error = some msg :=
  ⟨rfl, ⟨jsOrString m "Failed to fetch employees", rfl⟩⟩

/-- C6: a failing `fetchEmployee` run rejects with a non-empty message
and leaves `currentEmployee` exactly as it was. -/
theorem C6_fetchEmployee_failure_rejects (s : ClientState) (id : String)
    (m : Option String) :
    (∃ msg, (fetchEmployee s id (Outcome.failure m)).2 = Except.error msg ∧
      msg ≠ "") ∧
    (fetchEmployee s id (Outcome.failure m)).1.currentEmployee
      = s.currentEmployee := by
  refine ⟨⟨jsOrString m "Failed to fetch employee", rfl, ?_⟩, rfl⟩
  cases m with
  | none => simp [jsOrString]
  | some t =>
    by_cases h : t = "" <;> simp [jsOrString, h]

/-- C7: `generateQRCode` never touches the cached list or the current
employee, whether it succeeds or fails, and on success it returns the
`qrCodeDataUrl` of the response envelope. -/
theorem C7_generateQRCode_frame (s : ClientState) (id : String)
    (o : Outcome QRResponseData) :
    (generateQRCode s id o).1.employees = s.employees ∧
    (generateQRCode s id o).1.currentEmployee = s.currentEmployee ∧
    ∀ d, o = Outcome.success d →
      (generateQRCode s id o).2 = Except.ok d.qrCodeDataUrl := by
  cases o with
  | success d =>
    refine ⟨rfl, rfl, ?_⟩
    intro d2 h
    cases h
    rfl
  | failure m =>
    refine ⟨rfl, rfl, ?_⟩
    intro d2 h
    cases h

/-- C7 witness: a concrete successful QR run returns the envelope URL
and leaves the state components untouched. -/
theorem C7_generateQRCode_frame_witness :
    (generateQRCode emptyState "q1" (Outcome.success ⟨"data:url"⟩)).1.employees
      = emptyState.employees ∧
    (generateQRCode emptyState "q1" (Outcome.success ⟨"data:url"⟩)).1.currentEmployee
      = emptyState.currentEmployee ∧
    (generateQRCode emptyState "q1" (Outcome.success ⟨"data:url"⟩)).2
      = Except.ok "data:url" := by
  have h := C7_generateQRCode_frame emptyState "q1" (Outcome.success ⟨"data:url"⟩)
  exact ⟨h.1, h.2.1, h.2.2 ⟨"data:url"⟩ rfl⟩

/-- C8: every operation raises the shared loading flag at its start
(`beginOp`) and its final state has `loading = false`, whatever the
outcome; so a run in isolation ends with `loading = false`. -/
theorem C8_loading_flag (s : ClientState) (id : String)
    (oL : Outcome (List Employee)) (oF oC oU : Outcome Employee)
    (oD : Outcome Unit) (oQ : Outcome QRResponseData) :
    (beginOp s).loading = true ∧
    (fetchEmployees s oL).1.loading = false ∧
    (fetchEmployee s id oF).1.loading = false ∧
    (createEmployee s oC).1.loading = false ∧
    (updateEmployee s id oU).1.loading = false ∧
    (deleteEmployee s id oD).1.loading = false ∧
    (generateQRCode s id oQ).1.loading = false :=
  ⟨rfl, by cases oL <;> rfl, by cases oF <;> rfl, by cases oC <;> rfl,
   by cases oU <;> rfl, by cases oD <;> rfl, by cases oQ <;> rfl⟩

/-- C9: a successful `deleteEmployee` never modifies `currentEmployee`;
in particular, deleting the currently viewed employee leaves the
deleted record in `currentEmployee` instead of clearing it. -/
theorem C9_delete_preserves_currentEmployee (s : ClientState) (id : String) :
    (deleteEmployee s id (Outcome.success ())).1.currentEmployee
      = s.currentEmployee ∧
    ∀ e, s.currentEmployee = some e → e._id = id →
      (deleteEmployee s id (Outcome.success ())).1.currentEmployee = some e := by
  refine ⟨rfl, ?_⟩
  intro e he _
  exact he ▸ rfl

/-- C9 witness: deleting the employee currently being viewed leaves it
in `currentEmployee`. -/
theorem C9_delete_preserves_currentEmployee_witness :
    (deleteEmployee viewingState "x" (Outcome.success ())).1.currentEmployee
      = some (sampleEmployee "x" "Alice") :=
  (C9_delete_preserves_currentEmployee viewingState "x").2
    (sampleEmployee "x" "Alice") rfl rfl

/-- C10: every operation clears the shared error slot at its start
(`beginOp`), and after any successful operation the error slot is
`none`, whatever error an earlier operation left in `s`. -/
theorem C10_error_cleared_on_success (s : ClientState) (id : String)
    (list : List Employee) (e : Employee) (d : QRResponseData) :
    (beginOp s).error = none ∧
    (fetchEmployees s (Outcome.success list)).1.error = none ∧
    (fetchEmployee s id (Outcome.success e)).1.error = none ∧
    (createEmployee s (Outcome.success e)).1.error = none ∧
    (updateEmployee s id (Outcome.success e)).1.error = none ∧
    (deleteEmployee s id (Outcome.success ())).1.error = none ∧
    (generateQRCode s id (Outcome.success d)).1.error = none :=
  ⟨rfl, rfl, rfl, rfl, rfl, rfl, rfl⟩

/-- C2 counterexample: the response body's `message` field is present
(the empty string), yet `fetchEmployee` stores the generic fallback
rather than that field — JavaScript `||` also discards a present but
falsy (empty) message, so a message "equal to the message field
whenever present" is not what the code computes. -/
theorem C2_failure_message_counterexample :
    (fetchEmployee emptyState "e1" (Outcome.failure (some ""))).1.error ≠
      some (specClaimedMessage (some "") "Failed to fetch employee") := by
  decide

/-- C2 (amended): for every failing run of the five throwing
operations, the computed message keeps the response body's `message`
field whenever it is present and non-empty, and is the operation's
generic fallback when the field is absent or empty; exactly that
message is stored in the shared error slot and carried by the
rejection. -/
theorem C2_failure_policy (s : ClientState) (id : String) (m : Option String) :
    (∃ msg, (fetchEmployee s id (Outcome.failure m)).1.error = some msg ∧
      (fetchEmployee s id (Outcome.failure m)).2 = Except.error msg ∧
      (∀ t, m = some t → t ≠ "" → msg = t) ∧
      ((m = none ∨ m = some "") → msg = "Failed to fetch employee")) ∧
    (∃ msg, (createEmployee s (Outcome.failure m)).1.error = some msg ∧
      (createEmployee s (Outcome.failure m)).2 = Except.error msg ∧
      (∀ t, m = some t → t ≠ "" → msg = t) ∧
      ((m = none ∨ m = some "") → msg = "Failed to create employee")) ∧
    (∃ msg, (updateEmployee s id (Outcome.failure m)).1.error = some msg ∧
      (updateEmployee s id (Outcome.failure m)).2 = Except.error msg ∧
      (∀ t, m = some t → t ≠ "" → msg = t) ∧
      ((m = none ∨ m = some "") → msg = "Failed to update employee")) ∧
    (∃ msg, (deleteEmployee s id (Outcome.failure m)).1.error = some msg ∧
      (deleteEmployee s id (Outcome.failure m)).2 = Except.error msg ∧
      (∀ t, m = some t → t ≠ "" → msg = t) ∧
      ((m = none ∨ m = some "") → msg = "Failed to delete employee")) ∧
    (∃ msg, (generateQRCode s id (Outcome.failure m)).1.error = some msg ∧
      (generateQRCode s id (Outcome.failure m)).2 = Except.error msg ∧
      (∀ t, m = some t → t ≠ "" → msg = t) ∧
      ((m = none ∨ m = some "") → msg = "Failed to generate QR code")) :=
  ⟨⟨jsOrString m "Failed to fetch employee", rfl, rfl,
    (jsOrString_selects m "Failed to fetch employee").1,
    (jsOrString_selects m "Failed to fetch employee").2⟩,
   ⟨jsOrString m "Failed to create employee", rfl, rfl,
    (jsOrString_selects m "Failed to create employee").1,
    (jsOrString_selects m "Failed to create employee").2⟩,
   ⟨jsOrString m "Failed to update employee", rfl, rfl,
    (jsOrString_selects m "Failed to update employee").1,
    (jsOrString_selects m "Failed to update employee").2⟩,
   ⟨jsOrString m "Failed to delete employee", rfl, rfl,
    (jsOrString_selects m "Failed to delete employee").1,
    (jsOrString_selects m "Failed to delete employee").2⟩,
   ⟨jsOrString m "Failed to generate QR code", rfl, rfl,
    (jsOrString_selects m "Failed to generate QR code").1,
    (jsOrString_selects m "Failed to generate QR code").2⟩⟩

/-- C2 witness: a concrete failing `fetchEmployee` with a non-empty
server message stores and throws exactly that message. -/
theorem C2_failure_policy_witness :
    (fetchEmployee emptyState "e9" (Outcome.failure (some "boom"))).1.error
      = some "boom" ∧
    (fetchEmployee emptyState "e9" (Outcome.failure (some "boom"))).2
      = Except.error "boom" := by
  obtain ⟨⟨msg, h1, h2, hsel, _⟩, _⟩ :=
    C2_failure_policy emptyState "e9" (some "boom")
  have hmsg : msg = "boom" := hsel "boom" rfl (by decide)
  subst hmsg
  exact ⟨h1, h2⟩

/-- C3 counterexample: with two cached entries sharing identifier `x`,
a successful `deleteEmployee "x"` removes both (the filter drops every
match), not exactly one. -/
theorem C3_delete_counterexample :
    (deleteEmployee dupState "x" (Outcome.success ())).1.employees.length ≠
      dupState.employees.length - 1 := by
  decide

/-- C3 (amended): a successful `deleteEmployee id` removes every cached
entry whose identifier matches `id` and keeps all the others in their
original relative order; when exactly one cached entry matches — the
id-uniqueness invariant — exactly one entry is removed. -/
theorem C3_delete_removes_matches (s : ClientState) (id : String) :
    List.Sublist (deleteEmployee s id (Outcome.success ())).1.employees
      s.employees ∧
    (∀ e ∈ s.employees, e._id ≠ id →
      e ∈ (deleteEmployee s id (Outcome.success ())).1.employees) ∧
    (∀ e ∈ (deleteEmployee s id (Outcome.success ())).1.employees,
      e._id ≠ id) ∧
    (s.employees.countP (fun e => e._id = id) = 1 →
      (deleteEmployee s id (Outcome.success ())).1.employees.length + 1
        = s.employees.length) := by
  have hres : (deleteEmployee s id (Outcome.success ())).1.employees
      = s.employees.filter (fun e => e._id ≠ id) := rfl
  refine ⟨hres ▸ List.filter_sublist s.employees, ?_, ?_, ?_⟩
  · intro e he hne
    rw [hres, List.mem_filter]
    exact ⟨he, by simpa using hne⟩
  · intro e he
    rw [hres, List.mem_filter] at he
    simpa using he.2
  · intro h
    rw [hres, ← h]
    exact length_filter_ne_add_countP s.employees id

/-- C3 witness: deleting the unique cached match removes exactly one
entry. -/
theorem C3_delete_removes_matches_witness :
    (deleteEmployee singleState "x" (Outcome.success ())).1.employees.length + 1
      = singleState.employees.length :=
  (C3_delete_removes_matches singleState "x").2.2.2 (by decide)

/-- C4 counterexample: when the server's returned record is already
present in the cache, a successful `createEmployee` leaves it in the
list twice, not exactly once. -/
theorem C4_create_counterexample :
    (createEmployee singleState
        (Outcome.success (sampleEmployee "x" "Alice"))).1.employees.count
      (sampleEmployee "x" "Alice") ≠ 1 := by
  decide

/-- C4 (amended): a successful `createEmployee` makes the
server-assigned record the first element of the cache, with all
previously cached entries following unchanged and in order; provided
the record was not already cached (guaranteed by a fresh
server-assigned identifier), it appears exactly once. -/
theorem C4_create_prepends (s : ClientState) (newEmployee : Employee) :
    (createEmployee s (Outcome.success newEmployee)).1.employees.head?
      = some newEmployee ∧
    (createEmployee s (Outcome.success newEmployee)).1.employees.tail
      = s.employees ∧
    (newEmployee ∉ s.employees →
      (createEmployee s (Outcome.success newEmployee)).1.employees.count
        newEmployee = 1) := by
  refine ⟨rfl, rfl, ?_⟩
  intro h
  have hres : (createEmployee s (Outcome.success newEmployee)).1.employees
      = newEmployee :: s.employees := rfl
  rw [hres, List.count_cons_self, List.count_eq_zero.mpr h]

/-- C4 witness: creating into an empty cache yields the new record
first, the old (empty) cache as tail, and a single occurrence. -/
theorem C4_create_prepends_witness :
    (createEmployee emptyState
        (Outcome.success (sampleEmployee "y" "Bob"))).1.employees.head?
      = some (sampleEmployee "y" "Bob") ∧
    (createEmployee emptyState
        (Outcome.success (sampleEmployee "y" "Bob"))).1.employees.tail
      = emptyState.employees ∧
    (createEmployee emptyState
        (Outcome.success (sampleEmployee "y" "Bob"))).1.employees.count
      (sampleEmployee "y" "Bob") = 1 := by
  have h := C4_create_prepends emptyState (sampleEmployee "y" "Bob")
  exact ⟨h.1, h.2.1, h.2.2 (by decide)⟩

/-- C5: a successful `updateEmployee id` keeps the cache length and,
position by position, replaces each entry whose identifier matches
`id` with the server's record while leaving every other entry
unchanged. -/
theorem C5_update_in_place (s : ClientState) (id : String)
    (updatedEmployee : Employee) :
    (updateEmployee s id (Outcome.success updatedEmployee)).1.employees.length
      = s.employees.length ∧
    ∀ i : Nat, ∀ e, s.employees[i]? = some e →
      (e._id = id →
        (updateEmployee s id
          (Outcome.success updatedEmployee)).1.employees[i]?
          = some updatedEmployee) ∧
      (e._id ≠ id →
        (updateEmployee s id
          (Outcome.success updatedEmployee)).1.employees[i]? = some e) := by
  have hres : (updateEmployee s id (Outcome.success updatedEmployee)).1.employees
      = s.employees.map (fun emp => if emp._id = id then updatedEmployee else emp) :=
    rfl
  constructor
  · rw [hres, List.length_map]
  · intro i e he
    constructor
    · intro hid
      rw [hres, List.getElem?_map, he]
      simp [hid]
    · intro hid
      rw [hres, List.getElem?_map, he]
      simp [hid]

/-- C5 witness: updating the single cached entry replaces it in place
and keeps the length. -/
theorem C5_update_in_place_witness :
    (updateEmployee singleState "x"
        (Outcome.success (sampleEmployee "x" "Carol"))).1.employees.length
      = singleState.employees.length ∧
    (updateEmployee singleState "x"
        (Outcome.success (sampleEmployee "x" "Carol"))).1.employees[0]?
      = some (sampleEmployee "x" "Carol") := by
  have h := C5_update_in_place singleState "x" (sampleEmployee "x" "Carol")
  exact ⟨h.1, (h.2 0 (sampleEmployee "x" "Alice") rfl).1 rfl⟩
